import Mathlib

/-!
Shallow embedding of the container lifecycle supervisor and archive
retrieval pipeline of `src/main.py`.

The Runtime Gateway (the docker client) is modelled as an oracle
(`Engine`) describing what each engine call would return; every public
operation is a pure function of the request, the credentials, the State
Store (`container_state`) and that oracle, returning the HTTP-level
response, the list of gateway calls it performed, and (where the store
could matter) the resulting store.
-/

namespace DockerApi

/-- A record held in `container_state`: the dict
`{"name": ..., "status": ..., "exit_code": ...}` built by the monitor
coroutine in `create_container`. -/
structure ContainerRecord where
  name : String
  status : String
  exit_code : Int
deriving Repr, DecidableEq

/-- The process-wide `container_state` dict, name -> record. -/
abbrev StateStore := List (String × ContainerRecord)

/-- Dict upsert `container_state[name] = r`. -/
def storePut (store : StateStore) (name : String) (r : ContainerRecord) : StateStore :=
  match store with
  | [] => [(name, r)]
  | (k, v) :: rest =>
      if k = name then (name, r) :: rest else (k, v) :: storePut rest name r

/-- Dict lookup `container_state.get(name)` / `name in container_state`. -/
def storeGet (store : StateStore) (name : String) : Option ContainerRecord :=
  match store with
  | [] => none
  | (k, v) :: rest => if k = name then some v else storeGet rest name

/-- HTTP basic credentials. -/
structure Credentials where
  username : String
  password : String
deriving Repr, DecidableEq

/-- `authenticate` (main.py:75-90): compares the provided credentials with
the stored ones; in the source it returns `True` on match and raises
`HTTPException(401)` otherwise, so we model it as the boolean match and
let each caller map `false` to its 401 response. -/
def authenticate (stored provided : Credentials) : Bool :=
  provided.username == stored.username && provided.password == stored.password

/-- A member of the tar archive returned by `get_archive`, as `tarfile`
presents it: `tar.getmembers()` yields members in archive order,
`member.isfile()` says whether it is a regular file, and
`tar.extractfile(member).read()` yields its bytes (abstracted here as a
`String`). -/
structure TarMember where
  isfile : Bool
  name : String
  content : String
deriving Repr, DecidableEq

/-- Result of `container.get_archive(path)`: the byte stream of a tar
archive (kept symbolic as the members it parses to), or an exception —
`NotFound` on a missing in-container path or any engine failure — with
message `msg` (what `str(e)` yields; `download_files` catches both the
same way). -/
inductive ArchiveResult where
  | ok (members : List TarMember)
  | err (msg : String)
deriving Repr, DecidableEq

/-- Result of `client.containers.get(name)`: a handle, a
`docker.errors.NotFound` whose `str(e)` is `msg`, or any other engine
exception with message `msg`. -/
inductive GetResult where
  | found
  | notFound (msg : String)
  | engErr (msg : String)
deriving Repr, DecidableEq

/-- Oracle for the Runtime Gateway: what each engine call would do if
performed. For `stopC`/`removeC`/`runC`, `none` is success and
`some msg` an engine exception with message `msg`; `logsC` is
`container.logs()` and `archiveC` is `container.get_archive(path)`. -/
structure Engine where
  getC : String → GetResult
  stopC : String → Option String
  removeC : String → Option String
  runC : String → String → String → Option String
  logsC : String → Except String String
  archiveC : String → String → ArchiveResult

/-- One call made to the Runtime Gateway, for call-trace properties. -/
inductive GwCall where
  | getCall (name : String)
  | stopCall (name : String)
  | removeCall (name : String)
  | runCall (name image command : String)
  | logsCall (name : String)
  | archiveCall (name path : String)
deriving Repr, DecidableEq

/-- A Python exception escaping a handler unhandled. -/
inductive PyError where
  | keyError (key : String)
  | runtimeError (msg : String)
  | typeError
deriving Repr, DecidableEq

/-- What a request handler resolves to. `ok` is a plain
`{"message": ...}` dict (status 200); `stateRecord` is the record dict
returned by `get_container_state`; `logsPayload` the `{"logs": ...}`
dict returned by `get_container_logs`; `unauthorized` the 401
`JSONResponse` (also produced when `authenticate`'s `HTTPException`
propagates to the framework); `serverError` the 500 `JSONResponse`
`{"message": str(e)}` with `str(e)` an engine-supplied message;
`serverErrorPy` the same 500 `JSONResponse` for an exception raised by
the Python runtime itself (its `str(e)` text is external, so the
exception value is kept instead); `unhandled` an exception that
escaped the handler (the framework then aborts the request with a
generic 500 that does not carry the exception's message). -/
inductive Response where
  | ok (message : String)
  | stateRecord (r : ContainerRecord)
  | logsPayload (logs : String)
  | unauthorized
  | serverError (message : String)
  | serverErrorPy (e : PyError)
  | unhandled (e : PyError)
deriving Repr, DecidableEq

/-- `stop_container` (main.py:408-440). Note the order in the source:
the empty-name check and the `container_state[name]["status"]` check
come before the `try` block that authenticates; `container_state[name]`
on an absent key raises `KeyError`; and `container.stop()` sits after
the `try`/`except`, so its failure is unhandled. -/
def stop_container (stored creds : Credentials) (engine : Engine)
    (store : StateStore) (name : String) : Response × List GwCall :=
  if name = "" then
    (.ok "Container name must be provided.", [])
  else
    match storeGet store name with
    | none => (.unhandled (.keyError name), [])
    | some r =>
      if r.status = "exited" then
        (.ok s!"Container {name} has already stopped.", [])
      else if authenticate stored creds then
        match engine.getC name with
        | .notFound _ => (.ok s!"Container {name} not found.", [.getCall name])
        | .engErr msg => (.serverError msg, [.getCall name])
        | .found =>
          match engine.stopC name with
          | some msg => (.unhandled (.runtimeError msg), [.getCall name, .stopCall name])
          | none => (.ok s!"Container {name} stopped successfully.", [.getCall name, .stopCall name])
      else (.unauthorized, [])

/-- `delete_container` (main.py:443-470). The store is threaded through
unchanged because the handler never touches `container_state`;
`container.remove()` sits after the `try`/`except`, so its failure is
unhandled. -/
def delete_container (stored creds : Credentials) (engine : Engine)
    (store : StateStore) (name : String) : Response × List GwCall × StateStore :=
  if name = "" then
    (.ok "Container name must be provided.", [], store)
  else if authenticate stored creds then
    match engine.getC name with
    | .notFound _ => (.ok s!"Container {name} not found.", [.getCall name], store)
    | .engErr msg => (.serverError msg, [.getCall name], store)
    | .found =>
      match engine.removeC name with
      | some msg => (.unhandled (.runtimeError msg), [.getCall name, .removeCall name], store)
      | none => (.ok s!"Container {name} deleted successfully.", [.getCall name, .removeCall name], store)
  else (.unauthorized, [], store)

/-- `get_container_state` (main.py:265-285): authenticate, then a pure
`container_state` lookup; no docker client call is made. -/
def get_container_state (stored creds : Credentials) (store : StateStore)
    (name : String) : Response × List GwCall × StateStore :=
  if authenticate stored creds then
    match storeGet store name with
    | none => (.ok s!"Container {name} not found.", [], store)
    | some r => (.stateRecord r, [], store)
  else (.unauthorized, [], store)

/-- `get_container_logs` (main.py:288-316): the `try` block
authenticates and resolves the container via `containers.get`, with
`except NotFound` returning the "not found" message and
`except Exception` the 500 payload; `container.logs()` sits after the
`try`/`except`, so its failure is unhandled. -/
def get_container_logs (stored creds : Credentials) (engine : Engine)
    (name : String) : Response × List GwCall :=
  if authenticate stored creds then
    match engine.getC name with
    | .notFound _ => (.ok s!"Container {name} not found.", [.getCall name])
    | .engErr msg => (.serverError msg, [.getCall name])
    | .found =>
      match engine.logsC name with
      | .error msg => (.unhandled (.runtimeError msg), [.getCall name, .logsCall name])
      | .ok logs => (.logsPayload logs, [.getCall name, .logsCall name])
  else (.unauthorized, [])

/-- `create_container` (main.py:167-262), up to spawning the monitor
task: the three emptiness validations precede authentication and the
`client.containers.run` call; the third component records whether
`asyncio.create_task(_monitor_container())` was reached. The `volumes`
and `platform` arguments are passed through to the engine verbatim and
do not affect the handler's control flow, so they are left out of the
oracle. -/
def create_container (stored creds : Credentials) (engine : Engine)
    (name image command : String) : Response × List GwCall × Bool :=
  if name = "" then
    (.ok "Container name must be provided.", [], false)
  else if image = "" then
    (.ok "Docker image must be provided.", [], false)
  else if command = "" then
    (.ok "Command to run in the container must be provided.", [], false)
  else if authenticate stored creds then
    match engine.runC name image command with
    | some msg => (.serverError msg, [.runCall name image command], false)
    | none => (.ok s!"Container {name} created successfully.", [.runCall name image command], true)
  else (.unauthorized, [], false)

/-- `_monitor_container` (main.py:206-251), fuel-indexed. `obs i` is the
record built from the i-th `container.reload()` observation; each cycle
writes it into the store and stops when the status is `"exited"`,
otherwise sleeps and repeats. `start` is the index of the next
observation; `fuel` bounds how many more cycles we unfold. -/
def monitorRun (obs : Nat → ContainerRecord) (name : String) :
    Nat → Nat → StateStore → StateStore
  | _, 0, store => store
  | start, fuel+1, store =>
      let r := obs start
      let store2 := storePut store name r
      if r.status = "exited" then store2
      else monitorRun obs name (start+1) fuel store2

/-- The content of the host file `P = host_directory/basename(path)` as
it moves through the pipeline stages of `download_files`: the raw tar
bytes written verbatim by `save_response_to_file` (kept symbolic as the
member list they parse to), or plain extracted bytes. -/
inductive HostFile where
  | tarBytes (archive : List TarMember)
  | content (b : String)
deriving Repr, DecidableEq

/-- `read_file_content_from_tar` (main.py:332-351): start with
`file_content = None`, scan the members in archive order, and on every
regular file overwrite `file_content` with that member's bytes. -/
def read_file_content_from_tar (members : List TarMember) : Option String :=
  members.foldl (fun acc m => if m.isfile then some m.content else acc) none

/-- `save_file_content` (main.py:354-363) applied to host file state:
`open(file_name, 'wb')` truncates the file to empty before anything is
written; `outfile.write(file_content)` then writes the bytes, or raises
`TypeError` when `file_content` is `None` — leaving the file empty. -/
def save_file_content (file_content : Option String) (_current : HostFile) :
    HostFile × Option PyError :=
  match file_content with
  | some b => (.content b, none)
  | none => (.content "", some .typeError)

/-- Stage 1 of `download_files` (main.py:393-397): `get_archive` plus
`save_response_to_file` leave the raw tar bytes at `P`. -/
def download_stage_fetch (members : List TarMember) : HostFile :=
  .tarBytes members

/-- Stages 1-3 of `download_files` (main.py:396-399) for an archive that
parses to `members`: stage the raw tar at `P`, extract with
`read_file_content_from_tar`, overwrite `P` with `save_file_content`.
Returns the final state of `P` and the exception, if any, that
`except Exception` turns into a 500 payload. -/
def download_pipeline (members : List TarMember) : HostFile × Option PyError :=
  save_file_content (read_file_content_from_tar members) (download_stage_fetch members)

/-- `os.path.basename` for the slash-separated container path. -/
def basename (path : String) : String :=
  (path.splitOn "/").getLastD path

/-- `download_files` (main.py:366-405): everything runs inside the
`try` block — authenticate, `containers.get`, `get_archive`, and the
three pipeline stages on `P = host_directory/basename(path)`.
`except HTTPException` yields the 401; `except Exception` turns every
other failure — a `NotFound` from `get` or `get_archive`, any engine
error, or the pipeline's own `TypeError` — into the 500 payload
`{"message": str(e)}`. The last component is the final state of `P`
(`none` when `P` was never created). The single quotes around the path
in the source's success f-string are omitted from the modelled
message. -/
def download_files (stored creds : Credentials) (engine : Engine)
    (container path host_directory : String) :
    Response × List GwCall × Option HostFile :=
  if authenticate stored creds then
    match engine.getC container with
    | .notFound msg => (.serverError msg, [.getCall container], none)
    | .engErr msg => (.serverError msg, [.getCall container], none)
    | .found =>
      match engine.archiveC container path with
      | .err msg => (.serverError msg, [.getCall container, .archiveCall container path], none)
      | .ok members =>
        match download_pipeline members with
        | (f, some e) =>
            (.serverErrorPy e, [.getCall container, .archiveCall container path], some f)
        | (f, none) =>
            (.ok s!"File {host_directory}/{basename path} successfully downloaded.",
             [.getCall container, .archiveCall container path], some f)
  else (.unauthorized, [], none)

/-! Concrete instances used by witnesses. -/

/-- Stored credentials used in concrete instances. -/
def adminCreds : Credentials := ⟨"admin", "hunter2"⟩

/-- Invalid credentials used in concrete instances. -/
def wrongCreds : Credentials := ⟨"eve", "guess"⟩

/-- An engine that knows no container. -/
def engineUnknown : Engine where
  getC := fun _ => .notFound "404 Client Error: no such container"
  stopC := fun _ => none
  removeC := fun _ => none
  runC := fun _ _ _ => none
  logsC := fun _ => .ok ""
  archiveC := fun _ _ => .ok []

/-- An engine on which every call succeeds. -/
def engineAllOk : Engine where
  getC := fun _ => .found
  stopC := fun _ => none
  removeC := fun _ => none
  runC := fun _ _ _ => none
  logsC := fun _ => .ok ""
  archiveC := fun _ _ => .ok []

/-- An engine whose post-resolution calls (`stop`, `remove`, `logs`)
raise with message `"boom"`. -/
def engineStopFails : Engine where
  getC := fun _ => .found
  stopC := fun _ => some "boom"
  removeC := fun _ => some "boom"
  runC := fun _ _ _ => none
  logsC := fun _ => .error "boom"
  archiveC := fun _ _ => .ok []

/-- An engine whose `containers.get` raises a non-`NotFound` engine
error with message `"boom"`; `get_archive` raises likewise. -/
def engineGetBoom : Engine where
  getC := fun _ => .engErr "boom"
  stopC := fun _ => none
  removeC := fun _ => none
  runC := fun _ _ _ => none
  logsC := fun _ => .ok ""
  archiveC := fun _ _ => .err "boom"

/-- A terminal record for container `"c"`. -/
def recExited : ContainerRecord := ⟨"c", "exited", 0⟩

/-- A non-terminal record for container `"c"`. -/
def recRunning : ContainerRecord := ⟨"c", "running", 0⟩

/-! Helper lemmas. -/

/-- Looking up the key just written by `storePut` yields the new record. -/
lemma storeGet_storePut (store : StateStore) (name : String) (r : ContainerRecord) :
    storeGet (storePut store name r) name = some r := by
  induction store with
  | nil => simp [storePut, storeGet]
  | cons kv rest ih =>
    obtain ⟨k, v⟩ := kv
    by_cases h : k = name <;> simp [storePut, storeGet, h, ih]

/-- The overwrite-on-every-regular-file fold keeps the last regular
file of the list, falling back to the accumulator. -/
lemma foldl_lastFile (members : List TarMember) (acc : Option String) :
    members.foldl (fun a m => if m.isfile then some m.content else a) acc
      = (((members.filter fun m => m.isfile).getLast?).map fun m => m.content).or acc := by
  induction members using List.reverseRecOn with
  | nil => rfl
  | append_singleton xs x ih =>
    rw [List.foldl_concat, List.filter_append]
    by_cases hx : x.isfile
    · simp [hx, List.getLast?_concat]
    · simp [hx, ih]

/-- `read_file_content_from_tar` returns the content of the last regular
file of the archive, or `None` when there is none. -/
lemma read_file_content_from_tar_eq (members : List TarMember) :
    read_file_content_from_tar members
      = ((members.filter fun m => m.isfile).getLast?).map fun m => m.content := by
  rw [read_file_content_from_tar, foldl_lastFile]
  exact Option.or_none

end DockerApi

namespace DockerApi

/-- C1: the claim says `stopContainer`, `removeContainer` and `getState`
on a name never observed by the supervisor each return a structured
"not found" outcome and never raise an unhandled fault.
`get_container_state` and `delete_container` do, but `stop_container`
evaluates `container_state[name]["status"]` before any `try`, so on a
name absent from the store it raises an unhandled `KeyError`. This
theorem evaluates all three handlers at the failing input (name `"c"`,
empty store, engine without the container). -/
theorem c1_stop_unknown_name_raises_keyError :
    stop_container adminCreds adminCreds engineUnknown [] "c"
      = (.unhandled (.keyError "c"), [])
    ∧ (get_container_state adminCreds adminCreds [] "c").1
      = .ok "Container c not found."
    ∧ (delete_container adminCreds adminCreds engineUnknown [] "c").1
      = .ok "Container c not found." := by
  refine ⟨?_, ?_, ?_⟩ <;> decide

/-- C3: on a name whose last known record in the store has status
`"exited"`, `stop_container` returns the "already stopped" success
message and performs zero Runtime Gateway calls. (The name is nonempty,
as every key ever written to the store is: `create_container` rejects
empty names before spawning the monitor that writes the key.) -/
theorem c3_stop_terminal_skips_gateway (stored creds : Credentials) (engine : Engine)
    (store : StateStore) (name : String) (r : ContainerRecord)
    (hname : name ≠ "") (hrec : storeGet store name = some r)
    (hterm : r.status = "exited") :
    stop_container stored creds engine store name
      = (.ok s!"Container {name} has already stopped.", []) := by
  simp [stop_container, hname, hrec, hterm]

/-- Witness for C3 at name `"c"`, store `[("c", recExited)]`. -/
theorem c3_stop_terminal_skips_gateway_witness :
    ("c" : String) ≠ ""
    ∧ storeGet [("c", recExited)] "c" = some recExited
    ∧ recExited.status = "exited"
    ∧ stop_container adminCreds adminCreds engineUnknown [("c", recExited)] "c"
        = (.ok "Container c has already stopped.", []) :=
  ⟨by decide, by decide, by decide,
    c3_stop_terminal_skips_gateway adminCreds adminCreds engineUnknown
      [("c", recExited)] "c" recExited (by decide) (by decide) (by decide)⟩

/-- C6: when any of `name`, `image`, `command` is empty,
`create_container` returns the corresponding validation message, makes
no Runtime Gateway call (in particular never reaches
`client.containers.run`), and spawns no monitor task. -/
theorem c6_create_validation_no_engine_call (stored creds : Credentials) (engine : Engine)
    (name image command : String)
    (h : name = "" ∨ image = "" ∨ command = "") :
    (create_container stored creds engine name image command).2.1 = []
    ∧ (create_container stored creds engine name image command).2.2 = false
    ∧ ((create_container stored creds engine name image command).1
          = .ok "Container name must be provided."
       ∨ (create_container stored creds engine name image command).1
          = .ok "Docker image must be provided."
       ∨ (create_container stored creds engine name image command).1
          = .ok "Command to run in the container must be provided.") := by
  by_cases h1 : name = ""
  · simp [create_container, h1]
  · by_cases h2 : image = ""
    · simp [create_container, h1, h2]
    · have h3 : command = "" := by tauto
      simp [create_container, h1, h2, h3]

/-- Witness for C6 at an empty image name. -/
theorem c6_create_validation_no_engine_call_witness :
    (("web" : String) = "" ∨ ("" : String) = "" ∨ ("sleep 60" : String) = "")
    ∧ (create_container adminCreds adminCreds engineUnknown "web" "" "sleep 60").2.1 = []
    ∧ (create_container adminCreds adminCreds engineUnknown "web" "" "sleep 60").2.2 = false
    ∧ ((create_container adminCreds adminCreds engineUnknown "web" "" "sleep 60").1
          = .ok "Container name must be provided."
       ∨ (create_container adminCreds adminCreds engineUnknown "web" "" "sleep 60").1
          = .ok "Docker image must be provided."
       ∨ (create_container adminCreds adminCreds engineUnknown "web" "" "sleep 60").1
          = .ok "Command to run in the container must be provided.") :=
  ⟨Or.inr (Or.inl rfl),
    c6_create_validation_no_engine_call adminCreds adminCreds engineUnknown
      "web" "" "sleep 60" (Or.inr (Or.inl rfl))⟩

/-- C7: a successful `delete_container` resolves the container via
`get`, calls `remove`, and leaves the State Store untouched, so
`get_container_state` afterwards answers exactly as before. -/
theorem c7_delete_preserves_store (stored creds : Credentials) (engine : Engine)
    (store : StateStore) (name : String)
    (hname : name ≠ "") (hauth : authenticate stored creds = true)
    (hget : engine.getC name = .found) (hrm : engine.removeC name = none) :
    delete_container stored creds engine store name
      = (.ok s!"Container {name} deleted successfully.",
         [.getCall name, .removeCall name], store)
    ∧ get_container_state stored creds
        (delete_container stored creds engine store name).2.2 name
      = get_container_state stored creds store name := by
  have h : delete_container stored creds engine store name
      = (.ok s!"Container {name} deleted successfully.",
         [.getCall name, .removeCall name], store) := by
    simp [delete_container, hname, hauth, hget, hrm]
  exact ⟨h, by rw [h]⟩

/-- Witness for C7 at name `"c"`, a store holding a record for `"c"`,
and an engine on which `get` and `remove` succeed. -/
theorem c7_delete_preserves_store_witness :
    ("c" : String) ≠ ""
    ∧ authenticate adminCreds adminCreds = true
    ∧ engineAllOk.getC "c" = .found
    ∧ engineAllOk.removeC "c" = none
    ∧ delete_container adminCreds adminCreds engineAllOk [("c", recExited)] "c"
        = (.ok "Container c deleted successfully.",
           [.getCall "c", .removeCall "c"], [("c", recExited)])
    ∧ get_container_state adminCreds adminCreds
        (delete_container adminCreds adminCreds engineAllOk [("c", recExited)] "c").2.2 "c"
      = get_container_state adminCreds adminCreds [("c", recExited)] "c" :=
  ⟨by decide, by decide, by decide, by decide,
    (c7_delete_preserves_store adminCreds adminCreds engineAllOk
      [("c", recExited)] "c" (by decide) (by decide) (by decide) (by decide)).1,
    (c7_delete_preserves_store adminCreds adminCreds engineAllOk
      [("c", recExited)] "c" (by decide) (by decide) (by decide) (by decide)).2⟩

/-- C8: `get_container_state` performs no Runtime Gateway call, leaves
the State Store unchanged, and answers the stored record when the key
is present and the "not found" message when it is absent. -/
theorem c8_get_state_pure_lookup (stored creds : Credentials)
    (store : StateStore) (name : String)
    (hauth : authenticate stored creds = true) :
    (get_container_state stored creds store name).2.1 = []
    ∧ (get_container_state stored creds store name).2.2 = store
    ∧ (get_container_state stored creds store name).1
        = (match storeGet store name with
           | none => .ok s!"Container {name} not found."
           | some r => .stateRecord r) := by
  cases h : storeGet store name <;> simp [get_container_state, hauth, h]

/-- Witness for C8 at a present key and an absent one folded into one
store. -/
theorem c8_get_state_pure_lookup_witness :
    authenticate adminCreds adminCreds = true
    ∧ (get_container_state adminCreds adminCreds [("c", recExited)] "c").2.1 = []
    ∧ (get_container_state adminCreds adminCreds [("c", recExited)] "c").2.2
        = [("c", recExited)]
    ∧ (get_container_state adminCreds adminCreds [("c", recExited)] "c").1
        = (match storeGet [("c", recExited)] "c" with
           | none => .ok "Container c not found."
           | some r => .stateRecord r) :=
  ⟨by decide,
    c8_get_state_pure_lookup adminCreds adminCreds [("c", recExited)] "c" (by decide)⟩

/-- C10: the empty-name and terminal-status checks of `stop_container`
run before `authenticate`, so on a name whose stored record is
`"exited"` the response is the same "already stopped" success for any
two sets of credentials. -/
theorem c10_stop_terminal_credential_independent (stored c1 c2 : Credentials)
    (engine : Engine) (store : StateStore) (name : String) (r : ContainerRecord)
    (hname : name ≠ "") (hrec : storeGet store name = some r)
    (hterm : r.status = "exited") :
    stop_container stored c1 engine store name
      = stop_container stored c2 engine store name
    ∧ stop_container stored c1 engine store name
      = (.ok s!"Container {name} has already stopped.", []) := by
  constructor <;> simp [stop_container, hname, hrec, hterm]

/-- Witness for C10: valid and invalid credentials get the same
"already stopped" answer on a terminal record. -/
theorem c10_stop_terminal_credential_independent_witness :
    ("c" : String) ≠ ""
    ∧ storeGet [("c", recExited)] "c" = some recExited
    ∧ recExited.status = "exited"
    ∧ stop_container adminCreds adminCreds engineUnknown [("c", recExited)] "c"
        = stop_container adminCreds wrongCreds engineUnknown [("c", recExited)] "c"
    ∧ stop_container adminCreds adminCreds engineUnknown [("c", recExited)] "c"
        = (.ok "Container c has already stopped.", []) :=
  ⟨by decide, by decide, by decide,
    (c10_stop_terminal_credential_independent adminCreds adminCreds wrongCreds
      engineUnknown [("c", recExited)] "c" recExited (by decide) (by decide) (by decide)).1,
    (c10_stop_terminal_credential_independent adminCreds adminCreds wrongCreds
      engineUnknown [("c", recExited)] "c" recExited (by decide) (by decide) (by decide)).2⟩

/-- C4: for an archive with at least one regular-file member, the
pipeline ends with the host file holding exactly the content of the
last regular-file member in archive order, and no error. -/
theorem c4_last_regular_file_wins (members : List TarMember) (m : TarMember)
    (hlast : (members.filter fun x => x.isfile).getLast? = some m) :
    download_pipeline members = (.content m.content, none) := by
  rw [download_pipeline, read_file_content_from_tar_eq, hlast]
  rfl

/-- Witness for C4 at the archive `[a.txt="foo", b.txt="bar"]`: the
final content is `"bar"` (last member wins). -/
theorem c4_last_regular_file_wins_witness :
    (([⟨true, "a.txt", "foo"⟩, ⟨true, "b.txt", "bar"⟩] : List TarMember).filter
        fun x => x.isfile).getLast? = some ⟨true, "b.txt", "bar"⟩
    ∧ download_pipeline [⟨true, "a.txt", "foo"⟩, ⟨true, "b.txt", "bar"⟩]
        = (.content "bar", none) :=
  ⟨by decide,
    c4_last_regular_file_wins [⟨true, "a.txt", "foo"⟩, ⟨true, "b.txt", "bar"⟩]
      ⟨true, "b.txt", "bar"⟩ (by decide)⟩

/-- C2 counterexample: on a tar with no regular-file member the claim
says the pipeline fails with a `FormatError` and performs no further
write to `P`, leaving the staged raw tar bytes there. In the code,
`read_file_content_from_tar` returns `None`, and `save_file_content`
still runs: its `open(file_name, 'wb')` truncates `P` to empty before
`outfile.write(None)` raises `TypeError`. So the final state of `P` is
not the staged tar: it is an empty file, and the failure is a
`TypeError`, not a tar-format error. -/
theorem c2_counterexample :
    (download_pipeline [⟨false, "somedir", ""⟩]).1
      ≠ download_stage_fetch [⟨false, "somedir", ""⟩]
    ∧ download_pipeline [⟨false, "somedir", ""⟩]
      = (.content "", some .typeError) := by
  refine ⟨?_, ?_⟩ <;> decide

/-- C2 amended: on every tar with no regular-file member, the pipeline
fails with the `TypeError` raised by writing `None`, and leaves `P`
truncated to an empty file (the staged raw tar bytes are destroyed by
the truncating reopen, not preserved). -/
theorem c2_no_regular_file_truncates_host_file (members : List TarMember)
    (hnone : (members.filter fun m => m.isfile) = []) :
    download_pipeline members = (.content "", some .typeError) := by
  rw [download_pipeline, read_file_content_from_tar_eq, hnone]
  rfl

/-- Witness for the amended C2 at a tar holding only a directory
member. -/
theorem c2_no_regular_file_truncates_host_file_witness :
    (([⟨false, "somedir", ""⟩] : List TarMember).filter fun m => m.isfile) = []
    ∧ download_pipeline [⟨false, "somedir", ""⟩] = (.content "", some .typeError) :=
  ⟨by decide,
    c2_no_regular_file_truncates_host_file [⟨false, "somedir", ""⟩] (by decide)⟩

/-- C9 counterexample: the claim says every Runtime Gateway failure is
returned as a structured payload carrying the engine message verbatim.
But `container.stop()` runs after `stop_container`'s `try` block: when
it raises with message `"boom"`, the exception escapes the handler
unhandled instead of becoming the structured 500 payload
`.serverError "boom"`. -/
theorem c9_counterexample :
    stop_container adminCreds adminCreds engineStopFails [("c", recRunning)] "c"
      = (.unhandled (.runtimeError "boom"), [.getCall "c", .stopCall "c"])
    ∧ (stop_container adminCreds adminCreds engineStopFails [("c", recRunning)] "c").1
      ≠ .serverError "boom" := by
  refine ⟨?_, ?_⟩ <;> decide

/-- C9 amended: gateway failures raised inside an operation's `try`
block — `containers.run` in `create_container`, `containers.get` in
`stop_container`, `delete_container`, `get_container_logs` and
`download_files`, and `get_archive` in `download_files` — are returned
as a structured 500 payload whose message is the engine message
verbatim, and the failing call appears exactly once in the trace (no
retry). A failure of `container.stop()`, `container.remove()` or
`container.logs()`, which execute after their `try` blocks, instead
escapes the handler as an unhandled fault. -/
theorem c9_try_block_errors_surfaced_verbatim (stored creds : Credentials)
    (engine : Engine) (store : StateStore)
    (name image command path hostdir msg : String) (r : ContainerRecord)
    (hauth : authenticate stored creds = true) :
    (name ≠ "" → image ≠ "" → command ≠ "" →
      engine.runC name image command = some msg →
      create_container stored creds engine name image command
        = (.serverError msg, [.runCall name image command], false))
    ∧ (name ≠ "" → storeGet store name = some r → r.status ≠ "exited" →
        engine.getC name = .engErr msg →
        stop_container stored creds engine store name
          = (.serverError msg, [.getCall name]))
    ∧ (name ≠ "" → engine.getC name = .engErr msg →
        delete_container stored creds engine store name
          = (.serverError msg, [.getCall name], store))
    ∧ (engine.getC name = .engErr msg →
        get_container_logs stored creds engine name
          = (.serverError msg, [.getCall name]))
    ∧ (engine.getC name = .engErr msg →
        download_files stored creds engine name path hostdir
          = (.serverError msg, [.getCall name], none))
    ∧ (engine.getC name = .found → engine.archiveC name path = .err msg →
        download_files stored creds engine name path hostdir
          = (.serverError msg, [.getCall name, .archiveCall name path], none))
    ∧ (name ≠ "" → storeGet store name = some r → r.status ≠ "exited" →
        engine.getC name = .found → engine.stopC name = some msg →
        (stop_container stored creds engine store name).1
          = .unhandled (.runtimeError msg))
    ∧ (name ≠ "" → engine.getC name = .found → engine.removeC name = some msg →
        (delete_container stored creds engine store name).1
          = .unhandled (.runtimeError msg))
    ∧ (engine.getC name = .found → engine.logsC name = .error msg →
        (get_container_logs stored creds engine name).1
          = .unhandled (.runtimeError msg)) := by
  refine ⟨?_, ?_, ?_, ?_, ?_, ?_, ?_, ?_, ?_⟩
  · intro h1 h2 h3 hrun
    simp [create_container, h1, h2, h3, hauth, hrun]
  · intro h1 hrec hterm hget
    simp [stop_container, h1, hrec, hterm, hauth, hget]
  · intro h1 hget
    simp [delete_container, h1, hauth, hget]
  · intro hget
    simp [get_container_logs, hauth, hget]
  · intro hget
    simp [download_files, hauth, hget]
  · intro hget harch
    simp [download_files, hauth, hget, harch]
  · intro h1 hrec hterm hget hstop
    simp [stop_container, h1, hrec, hterm, hauth, hget, hstop]
  · intro h1 hget hrm
    simp [delete_container, h1, hauth, hget, hrm]
  · intro hget hlogs
    simp [get_container_logs, hauth, hget, hlogs]

/-- Witness for the amended C9 on the engine whose `get` and
`get_archive` raise with message `"boom"`: `stop_container` surfaces
the `get` failure verbatim, and `download_files` surfaces the
`get` failure verbatim with a single gateway call. -/
theorem c9_try_block_errors_surfaced_verbatim_witness :
    authenticate adminCreds adminCreds = true
    ∧ (("c" : String) ≠ "" →
        storeGet [("c", recRunning)] "c" = some recRunning →
        recRunning.status ≠ "exited" →
        engineGetBoom.getC "c" = .engErr "boom" →
        stop_container adminCreds adminCreds engineGetBoom [("c", recRunning)] "c"
          = (.serverError "boom", [.getCall "c"]))
    ∧ (engineGetBoom.getC "c" = .engErr "boom" →
        download_files adminCreds adminCreds engineGetBoom "c" "/etc/hosts" "/tmp"
          = (.serverError "boom", [.getCall "c"], none)) :=
  ⟨by decide,
    (c9_try_block_errors_surfaced_verbatim adminCreds adminCreds engineGetBoom
      [("c", recRunning)] "c" "img" "cmd" "/etc/hosts" "/tmp" "boom" recRunning
      (by decide)).2.1,
    (c9_try_block_errors_surfaced_verbatim adminCreds adminCreds engineGetBoom
      [("c", recRunning)] "c" "img" "cmd" "/etc/hosts" "/tmp" "boom" recRunning
      (by decide)).2.2.2.2.1⟩

/-- After the monitor loop observes `"exited"` at index `start + k`
(the first such index from `start` on), giving it any fuel beyond
`k + 1` changes nothing: the loop has stopped. -/
lemma monitorRun_stable (obs : Nat → ContainerRecord) (name : String) :
    ∀ (k start fuel : Nat) (store : StateStore), k + 1 ≤ fuel →
      (obs (start + k)).status = "exited" →
      (∀ j, j < k → (obs (start + j)).status ≠ "exited") →
      monitorRun obs name start fuel store = monitorRun obs name start (k + 1) store := by
  intro k
  induction k with
  | zero =>
    intro start fuel store hf hterm _
    cases fuel with
    | zero => omega
    | succ f =>
      have h0 : (obs start).status = "exited" := by simpa using hterm
      simp [monitorRun, h0]
  | succ k ih =>
    intro start fuel store hf hterm hmin
    cases fuel with
    | zero => omega
    | succ f =>
      have h0 : (obs start).status ≠ "exited" := by
        have := hmin 0 (Nat.succ_pos k)
        simpa using this
      simp only [monitorRun, h0, if_false]
      exact ih (start + 1) f (storePut store name (obs start)) (by omega)
        (by rw [show start + 1 + k = start + (k + 1) by omega]; exact hterm)
        (fun j hj => by
          rw [show start + 1 + j = start + (j + 1) by omega]
          exact hmin (j + 1) (by omega))

/-- Running the monitor loop to its terminal observation leaves the
terminal record under the monitored key. -/
lemma monitorRun_lookup (obs : Nat → ContainerRecord) (name : String) :
    ∀ (k start : Nat) (store : StateStore),
      (obs (start + k)).status = "exited" →
      (∀ j, j < k → (obs (start + j)).status ≠ "exited") →
      storeGet (monitorRun obs name start (k + 1) store) name = some (obs (start + k)) := by
  intro k
  induction k with
  | zero =>
    intro start store hterm _
    have h0 : (obs start).status = "exited" := by simpa using hterm
    simp [monitorRun, h0, storeGet_storePut]
  | succ k ih =>
    intro start store hterm hmin
    have h0 : (obs start).status ≠ "exited" := by
      have := hmin 0 (Nat.succ_pos k)
      simpa using this
    simp only [monitorRun, h0, if_false]
    rw [show start + (k + 1) = start + 1 + k by omega] at hterm ⊢
    exact ih (start + 1) (storePut store name (obs start)) hterm
      (fun j hj => by
        rw [show start + 1 + j = start + (j + 1) by omega]
        exact hmin (j + 1) (by omega))

/-- C5: once the monitor observes and stores the terminal record
`obs k`, it stops: running the loop with any two fuels past `k + 1`
yields the same store (no further writes), and the key holds the
terminal record `obs k`. -/
theorem c5_monitor_terminal_idempotent (obs : Nat → ContainerRecord) (name : String)
    (store : StateStore) (k f1 f2 : Nat)
    (hterm : (obs k).status = "exited")
    (hmin : ∀ j, j < k → (obs j).status ≠ "exited")
    (hf1 : k + 1 ≤ f1) (hf2 : k + 1 ≤ f2) :
    monitorRun obs name 0 f1 store = monitorRun obs name 0 f2 store
    ∧ storeGet (monitorRun obs name 0 f1 store) name = some (obs k) := by
  have hterm0 : (obs (0 + k)).status = "exited" := by simpa using hterm
  have hmin0 : ∀ j, j < k → (obs (0 + j)).status ≠ "exited" := by
    intro j hj; simpa using hmin j hj
  have e1 := monitorRun_stable obs name k 0 f1 store hf1 hterm0 hmin0
  have e2 := monitorRun_stable obs name k 0 f2 store hf2 hterm0 hmin0
  refine ⟨e1.trans e2.symm, ?_⟩
  rw [e1]
  have := monitorRun_lookup obs name k 0 store hterm0 hmin0
  simpa using this

/-- Observation stream used by the C5 witness: `"running"` once, then
`"exited"` forever. -/
def monitorObsW : Nat → ContainerRecord :=
  fun i => if i = 0 then ⟨"c", "running", 0⟩ else ⟨"c", "exited", 0⟩

/-- Witness for C5: terminal observation at index 1; fuels 2 and 5
yield the same store, holding the exited record. -/
theorem c5_monitor_terminal_idempotent_witness :
    (monitorObsW 1).status = "exited"
    ∧ (monitorRun monitorObsW "c" 0 2 [] = monitorRun monitorObsW "c" 0 5 []
       ∧ storeGet (monitorRun monitorObsW "c" 0 2 []) "c" = some (monitorObsW 1)) :=
  ⟨by decide,
    c5_monitor_terminal_idempotent monitorObsW "c" [] 1 2 5 (by decide)
      (fun j hj => by
        have : j = 0 := by omega
        subst this
        decide)
      (by omega) (by omega)⟩

end DockerApi
